import Mathlib

/-!
Shallow embedding of the pricing/signal core of the polymarket-agent-mvp
repository, together with theorems settling the frozen claims about it.

Python `float` values are embedded as `PyFloat`: an exact rational for
finite values plus the three IEEE special values.  The repository's
arithmetic never rounds in any branch a claim touches (all claim-relevant
quantities are derived by +,-,*,/ from finitely many inputs), so the exact
rational semantics is faithful up to the spec's own stated tolerance.
Python comparison semantics (every comparison with NaN is false) and
truthiness (`x or 0.0`) are modelled explicitly.
-/

/- Batteries seals the arithmetic on `ℚ` for rewriting hygiene; concrete
evaluation of the embedded pipeline (e.g. by `decide`) needs it unfolded. -/
attribute [local semireducible] Rat.add Rat.mul Rat.sub Rat.inv Rat.ofScientific

/-- Python float: finite rational, +inf, -inf, or NaN. -/
inductive PyFloat where
  | fin (q : ℚ)
  | inf
  | ninf
  | nan
  deriving DecidableEq, Repr

/-- `math.isfinite`. -/
def PyFloat.isfinite : PyFloat → Bool
  | .fin _ => true
  | _ => false

/-- Python `<` on floats: any comparison involving NaN is `False`. -/
def PyFloat.lt : PyFloat → PyFloat → Bool
  | .fin a, .fin b => decide (a < b)
  | .fin _, .inf => true
  | .ninf, .fin _ => true
  | .ninf, .inf => true
  | _, _ => false

/-- Python `<=` on floats: any comparison involving NaN is `False`. -/
def PyFloat.le : PyFloat → PyFloat → Bool
  | .fin a, .fin b => decide (a ≤ b)
  | .fin _, .inf => true
  | .ninf, .fin _ => true
  | .ninf, .inf => true
  | .ninf, .ninf => true
  | .inf, .inf => true
  | _, _ => false

/-- Python float addition (exact on finite values; IEEE special rules). -/
def PyFloat.add : PyFloat → PyFloat → PyFloat
  | .fin a, .fin b => .fin (a + b)
  | .nan, _ => .nan
  | _, .nan => .nan
  | .inf, .ninf => .nan
  | .ninf, .inf => .nan
  | .inf, _ => .inf
  | _, .inf => .inf
  | .ninf, _ => .ninf
  | _, .ninf => .ninf

/-- Python float subtraction (exact on finite values; IEEE special rules). -/
def PyFloat.sub : PyFloat → PyFloat → PyFloat
  | .fin a, .fin b => .fin (a - b)
  | .nan, _ => .nan
  | _, .nan => .nan
  | .inf, .inf => .nan
  | .ninf, .ninf => .nan
  | .inf, _ => .inf
  | _, .inf => .ninf
  | .ninf, _ => .ninf
  | .fin _, .ninf => .inf

/-- Python float multiplication (exact on finite values; IEEE special rules). -/
def PyFloat.mul : PyFloat → PyFloat → PyFloat
  | .fin a, .fin b => .fin (a * b)
  | .nan, _ => .nan
  | _, .nan => .nan
  | .inf, .inf => .inf
  | .inf, .ninf => .ninf
  | .ninf, .inf => .ninf
  | .ninf, .ninf => .inf
  | .inf, .fin b => if 0 < b then .inf else if b < 0 then .ninf else .nan
  | .fin a, .inf => if 0 < a then .inf else if a < 0 then .ninf else .nan
  | .ninf, .fin b => if 0 < b then .ninf else if b < 0 then .inf else .nan
  | .fin a, .ninf => if 0 < a then .ninf else if a < 0 then .inf else .nan

/-- Python float division.  The repository only divides where the divisor is
guaranteed finite and nonzero by an enclosing guard; the `fin _ / fin 0`
arm (which in Python would raise `ZeroDivisionError`) is unreachable in
every use below and is mapped to `nan`. -/
def PyFloat.div : PyFloat → PyFloat → PyFloat
  | .nan, _ => .nan
  | _, .nan => .nan
  | .fin a, .fin b => if b = 0 then .nan else .fin (a / b)
  | .fin _, .inf => .fin 0
  | .fin _, .ninf => .fin 0
  | .inf, .fin b => if 0 ≤ b then .inf else .ninf
  | .ninf, .fin b => if 0 ≤ b then .ninf else .inf
  | .inf, _ => .nan
  | .ninf, _ => .nan

/-- CPython `min(a, b)`: keeps `a` unless `b < a`. -/
def pyMin (a b : PyFloat) : PyFloat := if PyFloat.lt b a then b else a

/-- CPython `max(a, b)`: keeps `a` unless `a < b`. -/
def pyMax (a b : PyFloat) : PyFloat := if PyFloat.lt a b then b else a

/-- Python truthiness of a float: `0.0` is falsy, everything else
(including NaN and the infinities) is truthy. -/
def pyTruthy : PyFloat → Bool
  | .fin q => decide (q ≠ 0)
  | _ => true

/-- Python `x or d` for an optional float `x`: `None` and `0.0` give `d`. -/
def pyOr (x : Option PyFloat) (d : PyFloat) : PyFloat :=
  match x with
  | none => d
  | some v => if pyTruthy v then v else d

example : PyFloat.lt .nan (.fin 1) = false := by decide
example : PyFloat.le (.fin 0) (.fin 0) = true := by decide
example : pyMin (.fin 1) .nan = .fin 1 := by decide
example : pyOr (some (.fin 0)) (.fin 0) = .fin 0 := by decide

/-! ## Data model (src/core/types.py) and reason codes (src/strategy/reason_codes.py) -/

/-- `src/core/types.py`: `OrderBookLevel`. -/
structure OrderBookLevel where
  price : PyFloat
  size : PyFloat
  deriving DecidableEq, Repr

/-- `src/core/types.py`: `OrderBook` (pydantic model). -/
structure OrderBook where
  market_id : String
  token_id : String
  bids : List OrderBookLevel
  asks : List OrderBookLevel
  best_bid : Option PyFloat
  best_ask : Option PyFloat
  mid_price : Option PyFloat
  spread_bps : Option PyFloat
  last_trade_price : Option PyFloat
  depth_within_1pct : Option PyFloat
  timestamp : PyFloat
  validity_reason : Option String
  deriving DecidableEq, Repr

/-- `src/strategy/reason_codes.py`: `BookValidityReason`. -/
inductive BookValidityReason where
  | NO_BID
  | NO_ASK
  | OUT_OF_RANGE
  | CROSSED_OR_LOCKED
  | NAN_OR_INF
  | INVALID_MID
  deriving DecidableEq, Repr

/-- The `.value` string of each `BookValidityReason` member. -/
def BookValidityReason.value : BookValidityReason → String
  | .NO_BID => "no_bid"
  | .NO_ASK => "no_ask"
  | .OUT_OF_RANGE => "out_of_range"
  | .CROSSED_OR_LOCKED => "crossed_or_locked"
  | .NAN_OR_INF => "nan_or_inf"
  | .INVALID_MID => "invalid_mid"

/-- `src/strategy/reason_codes.py`: `FilterReason`. -/
inductive FilterReason where
  | SPREAD_TOO_WIDE
  | DEPTH_TOO_THIN
  | SNAPSHOT_STALE
  | INVALID_BOOK
  | ZERO_EXEC_PRICE
  deriving DecidableEq, Repr

/-- The `.value` string of each `FilterReason` member. -/
def FilterReason.value : FilterReason → String
  | .SPREAD_TOO_WIDE => "spread_too_wide"
  | .DEPTH_TOO_THIN => "depth_too_thin"
  | .SNAPSHOT_STALE => "snapshot_stale"
  | .INVALID_BOOK => "invalid_book"
  | .ZERO_EXEC_PRICE => "zero_exec_price"

/-- Modelled from the spec: `SignalsConfig` is imported by
`src/strategy/*.py` from `src/core/config.py` but its declaration is not
in the repository snapshot; §6 of the spec lists its recognized options
(`ema_alpha: float (0,1]`, `max_spread_bps: float`, `min_depth_usdc:
float`, `max_snapshot_age_s: float`, `top_n_to_log: int ≥ 0`).  Fields are
exact rationals; configuration is validated at construction time, so no
degenerate float states arise here. -/
structure SignalsConfig where
  ema_alpha : ℚ
  max_spread_bps : ℚ
  min_depth_usdc : ℚ
  max_snapshot_age_s : ℚ
  top_n_to_log : ℕ

/-! ## BookNormalizer (src/collector/orderbook.py) -/

/-- `src/collector/orderbook.py`: `calculate_depth_within_1pct`.
Notional depth within ±1% of mid; the two Python accumulation loops are
left folds. -/
def calculate_depth_within_1pct (bids asks : List OrderBookLevel)
    (mid_price : PyFloat) : PyFloat :=
  if PyFloat.le mid_price (.fin 0) then .fin 0
  else
    let threshold_bid := PyFloat.mul mid_price (.fin 0.99)
    let bid_depth := bids.foldl
      (fun acc bid => if PyFloat.le threshold_bid bid.price then
          PyFloat.add acc (PyFloat.mul bid.price bid.size)
        else acc) (.fin 0)
    let threshold_ask := PyFloat.mul mid_price (.fin 1.01)
    let ask_depth := asks.foldl
      (fun acc ask => if PyFloat.le ask.price threshold_ask then
          PyFloat.add acc (PyFloat.mul ask.price ask.size)
        else acc) (.fin 0)
    PyFloat.add bid_depth ask_depth

/-- `src/collector/orderbook.py`: `classify_book_validity`.
Returns `none` if valid, otherwise the reason-code string. -/
def classify_book_validity (best_bid best_ask : Option PyFloat) :
    Option String :=
  match best_bid with
  | none => some BookValidityReason.NO_BID.value
  | some bb =>
    match best_ask with
    | none => some BookValidityReason.NO_ASK.value
    | some ba =>
      if !bb.isfinite || !ba.isfinite then
        some BookValidityReason.NAN_OR_INF.value
      else if PyFloat.lt bb (.fin 0) || PyFloat.lt (.fin 1) ba then
        some BookValidityReason.OUT_OF_RANGE.value
      else if PyFloat.le ba bb then
        some BookValidityReason.CROSSED_OR_LOCKED.value
      else
        none

/-- `src/collector/orderbook.py`: the pure normalization part of
`fetch_orderbook` (lines 106-147): extract best levels, classify validity,
derive `mid_price`, `spread_bps`, `depth_within_1pct`, and assemble the
`OrderBook`.  The surrounding network fetch/parse is external I/O and is
not part of the claims.  In the valid branch the classifier guarantees
both sides are present; `Option.getD .nan` unwraps them (the default is
unreachable there). -/
def normalize_book (token_id : String) (bids asks : List OrderBookLevel)
    (timestamp : PyFloat) : OrderBook :=
  let best_bid := bids.head?.map (·.price)
  let best_ask := asks.head?.map (·.price)
  match classify_book_validity best_bid best_ask with
  | some r =>
    { market_id := "", token_id := token_id, bids := bids, asks := asks,
      best_bid := best_bid, best_ask := best_ask,
      mid_price := some (.fin 0), spread_bps := none,
      last_trade_price := none, depth_within_1pct := some (.fin 0),
      timestamp := timestamp, validity_reason := some r }
  | none =>
    let bb := best_bid.getD .nan
    let ba := best_ask.getD .nan
    let mid_price := PyFloat.div (PyFloat.add bb ba) (.fin 2)
    if PyFloat.le mid_price (.fin 0) || !mid_price.isfinite then
      { market_id := "", token_id := token_id, bids := bids, asks := asks,
        best_bid := best_bid, best_ask := best_ask,
        mid_price := some (.fin 0), spread_bps := none,
        last_trade_price := none, depth_within_1pct := some (.fin 0),
        timestamp := timestamp,
        validity_reason := some BookValidityReason.INVALID_MID.value }
    else
      let spread_bps :=
        PyFloat.mul (PyFloat.div (PyFloat.sub ba bb) mid_price)
          (.fin 10000)
      let depth := calculate_depth_within_1pct bids asks mid_price
      { market_id := "", token_id := token_id, bids := bids, asks := asks,
        best_bid := best_bid, best_ask := best_ask,
        mid_price := some mid_price, spread_bps := some spread_bps,
        last_trade_price := none, depth_within_1pct := some depth,
        timestamp := timestamp, validity_reason := none }

example :
    (normalize_book "t" [⟨.fin 0.4, .fin 10⟩] [⟨.fin 0.45, .fin 10⟩]
      (.fin 0)).validity_reason = none := by decide
example :
    (normalize_book "t" [⟨.fin 0.4, .fin 10⟩] [⟨.fin 0.45, .fin 10⟩]
      (.fin 0)).mid_price = some (.fin 0.425) := by decide
example :
    (normalize_book "t" [] [⟨.fin 0.5, .fin 10⟩] (.fin 0)).validity_reason
      = some "no_bid" := by decide
example :
    (normalize_book "t" [⟨.fin 0.6, .fin 1⟩] [⟨.fin 0.5, .fin 1⟩]
      (.fin 0)).validity_reason = some "crossed_or_locked" := by decide

/-! ## FairValueEstimator (src/strategy/fair_value.py) -/

/-- The estimator's `_ema_state` dict (`token_id -> ema_mid`).  A Python
dict is observable only through key lookup; it is embedded as an
association list whose `lookup` is the dict access, with insertion
shadowing any earlier binding for the same key. -/
def EmaState := List (String × PyFloat)
deriving DecidableEq, Repr

/-- Dict lookup (`self._ema_state.get(token_id)`). -/
def EmaState.get (st : EmaState) (token_id : String) : Option PyFloat :=
  List.lookup token_id st

/-- Dict assignment (`self._ema_state[token_id] = ema`). -/
def EmaState.set (st : EmaState) (token_id : String) (v : PyFloat) :
    EmaState :=
  (token_id, v) :: st

/-- `src/strategy/fair_value.py`: `FairValueEstimator._update_ema`.
The mutated state is returned alongside the result. -/
def FairValueEstimator.update_ema (cfg : SignalsConfig) (st : EmaState)
    (token_id : String) (mid_price : PyFloat) : EmaState × PyFloat :=
  if PyFloat.le mid_price (.fin 0) then
    -- Degenerate mid, do not update; return existing or 0.5
    match st.get token_id with
    | some v => (st, v)
    | none => (st, .fin 0.5)
  else
    let prev := st.get token_id
    let ema :=
      match prev with
      | none => mid_price
      | some p =>
        PyFloat.add (PyFloat.mul (.fin cfg.ema_alpha) mid_price)
          (PyFloat.mul (.fin (1 - cfg.ema_alpha)) p)
    (st.set token_id ema, ema)

/-- `src/strategy/fair_value.py`: `FairValueEstimator.fair_value_prob`. -/
def FairValueEstimator.fair_value_prob (cfg : SignalsConfig)
    (st : EmaState) (book : OrderBook) : EmaState × PyFloat :=
  let mid := pyOr book.mid_price (.fin 0)
  if PyFloat.lt (.fin 0) mid then
    let r := FairValueEstimator.update_ema cfg st book.token_id mid
    (r.1, pyMax (.fin 0) (pyMin (.fin 1) r.2))
  else
    -- No good mid; use simple fallback
    (st, .fin 0.5)

/-! ## SignalFilters (src/strategy/filters.py) -/

/-- `src/strategy/filters.py`: `FilterResult`. -/
structure FilterResult where
  accepted : Bool
  reason : Option String
  deriving DecidableEq, Repr

/-- `src/strategy/filters.py`: `SignalFilters._spread_filter`. -/
def SignalFilters.spread_filter (cfg : SignalsConfig) (book : OrderBook) :
    Bool × Option String :=
  -- `book.spread_bps if book.spread_bps is not None else 99999.0`
  let spread_bps := book.spread_bps.getD (.fin 99999)
  if PyFloat.lt (.fin cfg.max_spread_bps) spread_bps then
    (false, some "spread_too_wide")
  else (true, none)

/-- `src/strategy/filters.py`: `SignalFilters._depth_filter`. -/
def SignalFilters.depth_filter (cfg : SignalsConfig) (book : OrderBook) :
    Bool × Option String :=
  let depth_usdc := pyOr book.depth_within_1pct (.fin 0)
  if PyFloat.lt depth_usdc (.fin cfg.min_depth_usdc) then
    (false, some "depth_too_thin")
  else (true, none)

/-- `src/strategy/filters.py`: `SignalFilters._staleness_filter`. -/
def SignalFilters.staleness_filter (cfg : SignalsConfig)
    (snapshot_age_s : Option PyFloat) : Bool × Option String :=
  match snapshot_age_s with
  | none => (true, none)
  | some a =>
    if PyFloat.lt (.fin cfg.max_snapshot_age_s) a then
      (false, some "snapshot_stale")
    else (true, none)

/-- `src/strategy/filters.py`: `SignalFilters.apply`.  All filters in
order; first failure wins and returns its reason code. -/
def SignalFilters.apply (cfg : SignalsConfig) (book : OrderBook)
    (snapshot_age_s : Option PyFloat) : FilterResult :=
  match SignalFilters.spread_filter cfg book with
  | (false, reason) => { accepted := false, reason := reason }
  | (true, _) =>
    match SignalFilters.depth_filter cfg book with
    | (false, reason) => { accepted := false, reason := reason }
    | (true, _) =>
      match SignalFilters.staleness_filter cfg snapshot_age_s with
      | (false, reason) => { accepted := false, reason := reason }
      | (true, _) => { accepted := true, reason := none }

/-! ## SignalGenerator (src/strategy/signal_generation.py) -/

/-- `src/strategy/signal_generation.py`: `Signal`. -/
structure Signal where
  cycle_id : ℤ
  market_id : String
  token_id : String
  side : String
  fair_value_prob : PyFloat
  p_implied_mid : PyFloat
  p_implied_exec_buy : PyFloat
  p_implied_exec_sell : PyFloat
  edge_bps : PyFloat
  filter_reason : Option String
  spread_bps : PyFloat
  depth_within_1pct : Option PyFloat
  deriving DecidableEq, Repr

/-- A Python runtime exception escaping a function in the embedded code. -/
inductive PyExc where
  | nameError (name : String)
  deriving DecidableEq, Repr

instance (ε α : Type) [DecidableEq ε] [DecidableEq α] :
    DecidableEq (Except ε α) := fun x y =>
  match x, y with
  | .ok a, .ok b =>
    if h : a = b then isTrue (by rw [h]) else isFalse (by simp [h])
  | .error a, .error b =>
    if h : a = b then isTrue (by rw [h]) else isFalse (by simp [h])
  | .ok _, .error _ => isFalse (by simp)
  | .error _, .ok _ => isFalse (by simp)

/-- `src/strategy/signal_generation.py`: `SignalGenerator._implied_probs`. -/
def SignalGenerator.implied_probs (book : OrderBook) :
    PyFloat × PyFloat × PyFloat :=
  let mid := pyOr book.mid_price (.fin 0)
  let best_bid := pyOr book.best_bid (.fin 0)
  let best_ask := pyOr book.best_ask (.fin 0)
  let p_mid := pyMax (.fin 0) (pyMin (.fin 1) mid)
  let p_exec_buy := pyMax (.fin 0) (pyMin (.fin 1) best_ask)
  let p_exec_sell := pyMax (.fin 0) (pyMin (.fin 1) best_bid)
  (p_mid, p_exec_buy, p_exec_sell)

/-- Python string `<`: lexicographic comparison by code point. -/
def strLtChars : List Char → List Char → Bool
  | [], [] => false
  | [], _ :: _ => true
  | _ :: _, [] => false
  | c :: cs, d :: ds =>
    if c.val < d.val then true
    else if d.val < c.val then false
    else strLtChars cs ds

/-- Python string `<` on `String`. -/
def pyStrLt (a b : String) : Bool := strLtChars a.data b.data

/-- Python string `<=` (total order, so `a <= b` iff `not (b < a)`). -/
def pyStrLe (a b : String) : Bool := !pyStrLt b a

/-- The sort key of `sorted(books, key=lambda b: (b.market_id, b.token_id))`:
lexicographic tuple comparison on the two strings. -/
def bookKeyLe (a b : OrderBook) : Bool :=
  if a.market_id = b.market_id then pyStrLe a.token_id b.token_id
  else pyStrLt a.market_id b.market_id

/-- Stable insertion of `x` into a sorted list: `x` goes before the first
element it compares `le` to, so elements with equal keys keep their
original relative order. -/
def insertBy (le : α → α → Bool) (x : α) : List α → List α
  | [] => [x]
  | y :: ys => if le x y then x :: y :: ys else y :: insertBy le x ys

/-- Stable sort by a boolean total preorder; observationally equal to
Python's stable `sorted` for the book key. -/
def sortedBy (le : α → α → Bool) : List α → List α
  | [] => []
  | x :: xs => insertBy le x (sortedBy le xs)

/-- `src/strategy/signal_generation.py`: `SignalGenerator.generate_signals`
(lines 61-132).  The estimator state is threaded explicitly; the result is
the post-call state paired with either the returned list or the Python
exception that escaped.

The source's main loop body ends with
`if p-exec_buy > 0 and math.isfinite(p_exec_buy):` (line 89), which
evaluates the unbound name `p` and raises `NameError` on the first
iteration, after the fair-value EMA for that book has already been
updated.  The sell-side block (lines 107-124) is indented OUTSIDE the
loop, so with an empty book list it evaluates `p_exec_sell`, which was
never assigned, and raises `NameError` as well.  Both raise sites are
embedded as `.error`; no code past them is reachable, so the loop never
proceeds past its first iteration and the sort/truncate tail (lines
126-132) is dead code. -/
def SignalGenerator.generate_signals (cfg : SignalsConfig)
    (st : EmaState) (cycle_id : ℤ) (books : List OrderBook) :
    EmaState × Except PyExc (List Signal) :=
  -- Deterministic order: sort by market_id, token_id
  let books_sorted := sortedBy bookKeyLe books
  match books_sorted with
  | [] =>
    -- Loop body never ran; line 108 reads the unassigned `p_exec_sell`.
    (st, .error (.nameError "p_exec_sell"))
  | book :: _ =>
    -- First loop iteration, lines 76-89.
    let probs := SignalGenerator.implied_probs book
    let r := FairValueEstimator.fair_value_prob cfg st book
    -- Positive edge: want to buy if fair > market
    let _edge_buy_bps := PyFloat.mul (PyFloat.sub r.2 probs.2.1) (.fin 10000)
    -- Negative edge: want to sell if fair < market
    let _edge_sell_bps := PyFloat.mul (PyFloat.sub probs.2.2 r.2) (.fin 10000)
    let _filt := SignalFilters.apply cfg book none
    -- Line 89: `if p-exec_buy > 0 ...` — `p` is unbound.
    (r.1, .error (.nameError "p"))

example :
    (SignalGenerator.generate_signals ⟨0.2, 500, 100, 60, 10⟩ [] 1
      []).2 = .error (.nameError "p_exec_sell") := by decide
example :
    (SignalGenerator.generate_signals ⟨0.2, 500, 100, 60, 10⟩ [] 1
      [normalize_book "t" [⟨.fin 0.4, .fin 10⟩] [⟨.fin 0.45, .fin 10⟩]
        (.fin 0)]).2 = .error (.nameError "p") := by decide

/-! ## Spec-side reformulations

Definitions in this section follow the spec's own words (ordered tables of
independently-stated conditions, filtered sums, rational arithmetic) and
are compared against the code-derived definitions above. -/

/-- First-match-wins over an ordered table of (condition, reason) rows:
the reason of the earliest row whose condition holds. -/
def firstMatchingReason (checks : List (Bool × String)) : Option String :=
  ((checks.filter (·.1)).head?).map (·.2)

/-- The five validity conditions of spec §4.1, each stated independently
of the others, in the spec's listed order.  Value-level conditions hold
only when the corresponding side is present. -/
def validityChecks (best_bid best_ask : Option PyFloat) :
    List (Bool × String) :=
  [ (best_bid.isNone, BookValidityReason.NO_BID.value),
    (best_ask.isNone, BookValidityReason.NO_ASK.value),
    ((best_bid.any fun b => !b.isfinite) ||
       (best_ask.any fun a => !a.isfinite),
     BookValidityReason.NAN_OR_INF.value),
    ((best_bid.any fun b => PyFloat.lt b (.fin 0)) ||
       (best_ask.any fun a => PyFloat.lt (.fin 1) a),
     BookValidityReason.OUT_OF_RANGE.value),
    ((match best_bid, best_ask with
      | some b, some a => PyFloat.le a b
      | _, _ => false),
     BookValidityReason.CROSSED_OR_LOCKED.value) ]

/-- C5: the classifier agrees everywhere with the earliest-matching row of
the five-condition table. -/
theorem classify_book_validity_eq_first_match (bb ba : Option PyFloat) :
    classify_book_validity bb ba = firstMatchingReason (validityChecks bb ba) := by
  cases bb with
  | none =>
    simp [classify_book_validity, validityChecks, firstMatchingReason,
      List.filter]
  | some b =>
    cases ba with
    | none =>
      simp [classify_book_validity, validityChecks, firstMatchingReason,
        List.filter]
    | some a =>
      by_cases h3 : (!b.isfinite || !a.isfinite) = true
      · simp [classify_book_validity, validityChecks, firstMatchingReason,
          List.filter, h3]
      · by_cases h4 : (PyFloat.lt b (.fin 0) || PyFloat.lt (.fin 1) a) = true
        · simp [classify_book_validity, validityChecks, firstMatchingReason,
            List.filter, h3, h4]
        · by_cases h5 : PyFloat.le a b = true
          · simp [classify_book_validity, validityChecks,
              firstMatchingReason, List.filter, h3, h4, h5]
          · simp [classify_book_validity, validityChecks,
              firstMatchingReason, List.filter, h3, h4, h5]

/-- The classifier accepts exactly the pairs of finite in-range
non-crossed best prices (shared helper). -/
theorem classify_eq_none_iff (bb ba : Option PyFloat) :
    classify_book_validity bb ba = none ↔
      ∃ qb qa, bb = some (.fin qb) ∧ ba = some (.fin qa) ∧
        0 ≤ qb ∧ qa ≤ 1 ∧ qb < qa := by
  constructor
  · intro h
    cases bb with
    | none => simp [classify_book_validity] at h
    | some b =>
      cases ba with
      | none => simp [classify_book_validity] at h
      | some a =>
        cases b with
        | fin qb =>
          cases a with
          | fin qa =>
            by_cases h4 : qb < 0 ∨ 1 < qa
            · simp [classify_book_validity, PyFloat.isfinite, PyFloat.lt,
                PyFloat.le, h4] at h
            · by_cases h5 : qa ≤ qb
              · simp [classify_book_validity, PyFloat.isfinite, PyFloat.lt,
                  PyFloat.le, h4, h5] at h
              · push_neg at h4
                exact ⟨qb, qa, rfl, rfl, h4.1, h4.2, not_le.mp h5⟩
          | inf => simp [classify_book_validity, PyFloat.isfinite] at h
          | ninf => simp [classify_book_validity, PyFloat.isfinite] at h
          | nan => simp [classify_book_validity, PyFloat.isfinite] at h
        | inf => simp [classify_book_validity, PyFloat.isfinite] at h
        | ninf => simp [classify_book_validity, PyFloat.isfinite] at h
        | nan => simp [classify_book_validity, PyFloat.isfinite] at h
  · rintro ⟨qb, qa, rfl, rfl, h1, h2, h3⟩
    simp only [classify_book_validity, PyFloat.isfinite, PyFloat.lt,
      PyFloat.le, Bool.not_true, Bool.or_self, Bool.false_or, if_false]
    rw [if_neg, if_neg, if_neg] <;> simp <;> first
      | exact ⟨not_lt.mpr h1, not_lt.mpr h2⟩
      | exact not_le.mpr h3
      | exact h3
      | exact ⟨h1, h2⟩

/-- Spec §3 invariant, right-hand side, stated on the produced snapshot:
best bid and ask present and finite, `0 ≤ best_bid`, `best_ask ≤ 1`,
`best_ask > best_bid`, and the resulting `mid_price > 0`. -/
def snapshotValidCond (s : OrderBook) : Prop :=
  ∃ qb qa, s.best_bid = some (.fin qb) ∧ s.best_ask = some (.fin qa) ∧
    0 ≤ qb ∧ qa ≤ 1 ∧ qb < qa ∧
    ∃ m, s.mid_price = some (.fin m) ∧ 0 < m

/-- C6: for every snapshot constructed by the book normalizer,
`validity_reason = none` holds exactly when best bid/ask are present,
finite, in range, uncrossed, and the derived mid price is positive. -/
theorem normalize_book_validity_none_iff (token_id : String)
    (bids asks : List OrderBookLevel) (timestamp : PyFloat) :
    (normalize_book token_id bids asks timestamp).validity_reason = none ↔
      snapshotValidCond (normalize_book token_id bids asks timestamp) := by
  cases h : classify_book_validity (bids.head?.map (·.price))
      (asks.head?.map (·.price)) with
  | some r =>
    simp only [normalize_book, h]
    constructor
    · intro hc
      simp at hc
    · rintro ⟨qb, qa, _, _, _, _, _, m, hm, hpos⟩
      simp only [OrderBook.mk.injEq] at hm
      simp at hm
      rw [← hm] at hpos
      exact absurd hpos (by norm_num)
  | none =>
    obtain ⟨qb, qa, hbbe, hbae, h0, h1, hlt⟩ :=
      (classify_eq_none_iff _ _).mp h
    have hmidpos : 0 < (qb + qa) / 2 := by linarith
    have hmid : PyFloat.div
        (PyFloat.add ((bids.head?.map (·.price)).getD .nan)
          ((asks.head?.map (·.price)).getD .nan)) (.fin 2)
        = .fin ((qb + qa) / 2) := by
      rw [hbbe, hbae]
      simp [PyFloat.add, PyFloat.div]
    simp only [normalize_book, h, hmid]
    rw [if_neg (by simp [PyFloat.le, PyFloat.isfinite, not_le.mpr hmidpos])]
    constructor
    · intro _
      exact ⟨qb, qa, hbbe, hbae, h0, h1, hlt, (qb + qa) / 2, rfl, hmidpos⟩
    · intro _
      rfl

/-- Shared helper: a snapshot the normalizer marks invalid (at either
stage) has `mid_price = 0.0`, `spread_bps = None`,
`depth_within_1pct = 0.0`. -/
theorem normalize_book_invalid_fields (token_id : String)
    (bids asks : List OrderBookLevel) (timestamp : PyFloat)
    (h : (normalize_book token_id bids asks timestamp).validity_reason ≠ none) :
    (normalize_book token_id bids asks timestamp).mid_price = some (.fin 0) ∧
    (normalize_book token_id bids asks timestamp).spread_bps = none ∧
    (normalize_book token_id bids asks timestamp).depth_within_1pct
      = some (.fin 0) := by
  cases hc : classify_book_validity (bids.head?.map (·.price))
      (asks.head?.map (·.price)) with
  | some r => simp [normalize_book, hc]
  | none =>
    simp only [normalize_book, hc] at h ⊢
    by_cases hg : (PyFloat.le (PyFloat.div
        (PyFloat.add ((bids.head?.map (·.price)).getD .nan)
          ((asks.head?.map (·.price)).getD .nan)) (.fin 2)) (.fin 0)
        || !(PyFloat.div (PyFloat.add ((bids.head?.map (·.price)).getD .nan)
          ((asks.head?.map (·.price)).getD .nan)) (.fin 2)).isfinite) = true
    · simp [hg]
    · simp [hg] at h

/-- A Python accumulation loop guarded by a predicate equals a left fold
of `PyFloat.add` over the filtered, mapped list. -/
theorem foldl_if_eq_foldl_filter_map {α : Type} (p : α → Bool)
    (f : α → PyFloat) (l : List α) (acc : PyFloat) :
    l.foldl (fun a x => if p x then PyFloat.add a (f x) else a) acc
      = ((l.filter p).map f).foldl PyFloat.add acc := by
  induction l generalizing acc with
  | nil => rfl
  | cons x xs ih =>
    by_cases h : p x <;> simp [List.filter, h, ih]

/-- Spec §4.2 as written: notional depth is the sum of `price × size` over
bids with `price ≥ 0.99·mid` plus the same sum over asks with
`price ≤ 1.01·mid`. -/
def specDepth (bids asks : List OrderBookLevel) (mid : PyFloat) : PyFloat :=
  PyFloat.add
    (((bids.filter fun l =>
        PyFloat.le (PyFloat.mul mid (.fin 0.99)) l.price).map
          fun l => PyFloat.mul l.price l.size).foldl PyFloat.add (.fin 0))
    (((asks.filter fun l =>
        PyFloat.le l.price (PyFloat.mul mid (.fin 1.01))).map
          fun l => PyFloat.mul l.price l.size).foldl PyFloat.add (.fin 0))

/-- The depth calculator computes the spec's filtered sums whenever its
`mid_price ≤ 0` early return does not fire. -/
theorem calculate_depth_eq_specDepth (bids asks : List OrderBookLevel)
    (mid : PyFloat) (h : PyFloat.le mid (.fin 0) = false) :
    calculate_depth_within_1pct bids asks mid = specDepth bids asks mid := by
  rw [calculate_depth_within_1pct, if_neg (by simp [h])]
  simp only [specDepth, foldl_if_eq_foldl_filter_map]

/-- C7: for every snapshot the normalizer produces, invalidity at any
stage zeroes the derived fields, while a valid snapshot carries the exact
mid/spread formulas and the filtered-sum depth of the spec. -/
theorem normalize_book_derived_fields (token_id : String)
    (bids asks : List OrderBookLevel) (timestamp : PyFloat) :
    ((normalize_book token_id bids asks timestamp).validity_reason ≠ none →
      (normalize_book token_id bids asks timestamp).mid_price
          = some (.fin 0) ∧
      (normalize_book token_id bids asks timestamp).spread_bps = none ∧
      (normalize_book token_id bids asks timestamp).depth_within_1pct
          = some (.fin 0)) ∧
    ((normalize_book token_id bids asks timestamp).validity_reason = none →
      ∃ qb qa,
        (normalize_book token_id bids asks timestamp).best_bid
            = some (.fin qb) ∧
        (normalize_book token_id bids asks timestamp).best_ask
            = some (.fin qa) ∧
        (normalize_book token_id bids asks timestamp).mid_price
            = some (.fin ((qb + qa) / 2)) ∧
        (normalize_book token_id bids asks timestamp).spread_bps
            = some (.fin ((qa - qb) / ((qb + qa) / 2) * 10000)) ∧
        (normalize_book token_id bids asks timestamp).depth_within_1pct
            = some (specDepth bids asks (.fin ((qb + qa) / 2)))) := by
  refine ⟨normalize_book_invalid_fields token_id bids asks timestamp, ?_⟩
  intro hv
  cases hc : classify_book_validity (bids.head?.map (·.price))
      (asks.head?.map (·.price)) with
  | some r => simp [normalize_book, hc] at hv
  | none =>
    obtain ⟨qb, qa, hbbe, hbae, h0, h1, hlt⟩ :=
      (classify_eq_none_iff _ _).mp hc
    have hmidpos : 0 < (qb + qa) / 2 := by linarith
    have hmidne : ((qb + qa) / 2 : ℚ) ≠ 0 := ne_of_gt hmidpos
    have h2 : (2 : ℚ) ≠ 0 := by norm_num
    have hmid : PyFloat.div
        (PyFloat.add ((bids.head?.map (·.price)).getD .nan)
          ((asks.head?.map (·.price)).getD .nan)) (.fin 2)
        = .fin ((qb + qa) / 2) := by
      rw [hbbe, hbae]
      simp [PyFloat.add, PyFloat.div, h2]
    have hmidle : PyFloat.le (.fin ((qb + qa) / 2)) (.fin 0) = false := by
      simp [PyFloat.le, not_le.mpr hmidpos]
    refine ⟨qb, qa, ?_, ?_, ?_, ?_, ?_⟩ <;>
      simp only [normalize_book, hc, hmid] <;>
      rw [if_neg (by simp [hmidle, PyFloat.isfinite])] <;>
      first
        | rfl
        | exact hbbe
        | exact hbae
        | (rw [hbbe, hbae]
           simp [PyFloat.sub, PyFloat.div, PyFloat.mul, hmidne]
           done)
        | (rw [calculate_depth_eq_specDepth bids asks _ hmidle]
           try rfl
           done)

/-- Witness for C7: the invalid branch at a bid-less book and the valid
branch at bid 0.40 / ask 0.45. -/
theorem normalize_book_derived_fields_witness :
    ((normalize_book "t" [] [⟨.fin 0.5, .fin 10⟩] (.fin 0)).mid_price
        = some (.fin 0) ∧
      (normalize_book "t" [] [⟨.fin 0.5, .fin 10⟩] (.fin 0)).spread_bps
        = none ∧
      (normalize_book "t" [] [⟨.fin 0.5, .fin 10⟩] (.fin 0)).depth_within_1pct
        = some (.fin 0)) ∧
    (∃ qb qa,
      (normalize_book "t" [⟨.fin 0.4, .fin 10⟩] [⟨.fin 0.45, .fin 10⟩]
          (.fin 0)).best_bid = some (.fin qb) ∧
      (normalize_book "t" [⟨.fin 0.4, .fin 10⟩] [⟨.fin 0.45, .fin 10⟩]
          (.fin 0)).best_ask = some (.fin qa) ∧
      (normalize_book "t" [⟨.fin 0.4, .fin 10⟩] [⟨.fin 0.45, .fin 10⟩]
          (.fin 0)).mid_price = some (.fin ((qb + qa) / 2)) ∧
      (normalize_book "t" [⟨.fin 0.4, .fin 10⟩] [⟨.fin 0.45, .fin 10⟩]
          (.fin 0)).spread_bps
        = some (.fin ((qa - qb) / ((qb + qa) / 2) * 10000)) ∧
      (normalize_book "t" [⟨.fin 0.4, .fin 10⟩] [⟨.fin 0.45, .fin 10⟩]
          (.fin 0)).depth_within_1pct
        = some (specDepth [⟨.fin 0.4, .fin 10⟩] [⟨.fin 0.45, .fin 10⟩]
            (.fin ((qb + qa) / 2)))) :=
  ⟨(normalize_book_derived_fields "t" [] [⟨.fin 0.5, .fin 10⟩]
      (.fin 0)).1 (by decide),
   (normalize_book_derived_fields "t" [⟨.fin 0.4, .fin 10⟩]
      [⟨.fin 0.45, .fin 10⟩] (.fin 0)).2 (by decide)⟩

/-- Spec §4.4 as written: the EMA recurrence on rationals. -/
def specEmaStep (alpha mid prev : ℚ) : ℚ :=
  alpha * mid + (1 - alpha) * prev

/-- Spec §4.4 as written: `clamp(x, 0, 1)` on rationals. -/
def specClamp01 (q : ℚ) : ℚ := max 0 (min 1 q)

/-- The code's `max(0.0, min(1.0, x))` equals the mathematical clamp on
finite values. -/
theorem pyClamp_eq_specClamp01 (q : ℚ) :
    pyMax (.fin 0) (pyMin (.fin 1) (.fin q)) = .fin (specClamp01 q) := by
  simp only [pyMax, pyMin, PyFloat.lt, specClamp01]
  by_cases h1 : q < 1
  · by_cases h2 : 0 < q
    · simp [h1, h2, min_eq_right h1.le, max_eq_right h2.le]
    · simp [h1, h2, min_eq_right h1.le, max_eq_left (not_lt.mp h2)]
  · simp [h1, min_eq_left (not_lt.mp h1), max_eq_right zero_le_one,
      zero_lt_one]

/-- C8: for a snapshot with positive finite mid, the estimator seeds the
EMA with the raw mid on the first observation for the token (returning the
clamped mid), and on later observations stores and returns (clamped)
`α·mid + (1-α)·ema_prev`. -/
theorem fair_value_prob_ema_update (cfg : SignalsConfig) (st : EmaState)
    (book : OrderBook) (q : ℚ) (hmid : book.mid_price = some (.fin q))
    (hpos : 0 < q) :
    (st.get book.token_id = none →
      FairValueEstimator.fair_value_prob cfg st book
        = (st.set book.token_id (.fin q), .fin (specClamp01 q))) ∧
    (∀ p, st.get book.token_id = some (.fin p) →
      FairValueEstimator.fair_value_prob cfg st book
        = (st.set book.token_id (.fin (specEmaStep cfg.ema_alpha q p)),
           .fin (specClamp01 (specEmaStep cfg.ema_alpha q p)))) := by
  have hq0 : q ≠ 0 := ne_of_gt hpos
  have htr : pyOr book.mid_price (.fin 0) = .fin q := by
    rw [hmid]
    simp [pyOr, pyTruthy, hq0]
  constructor
  · intro hget
    rw [FairValueEstimator.fair_value_prob, htr,
      if_pos (by simp [PyFloat.lt, hpos]), FairValueEstimator.update_ema,
      if_neg (by simp [PyFloat.le, not_le.mpr hpos]), hget]
    simp [pyClamp_eq_specClamp01]
  · intro p hget
    rw [FairValueEstimator.fair_value_prob, htr,
      if_pos (by simp [PyFloat.lt, hpos]), FairValueEstimator.update_ema,
      if_neg (by simp [PyFloat.le, not_le.mpr hpos]), hget]
    simp [PyFloat.mul, PyFloat.add, specEmaStep, pyClamp_eq_specClamp01]

/-- Witness for C8 at the spec's scenario 4: token mids 0.5 then 0.6 with
α = 0.2 give EMA values 0.5 then 0.52. -/
theorem fair_value_prob_ema_update_witness :
    FairValueEstimator.fair_value_prob ⟨0.2, 500, 100, 60, 10⟩ []
        (normalize_book "t" [⟨.fin 0.45, .fin 10⟩] [⟨.fin 0.55, .fin 10⟩]
          (.fin 0))
      = (EmaState.set [] "t" (.fin 0.5), .fin (specClamp01 0.5)) ∧
    FairValueEstimator.fair_value_prob ⟨0.2, 500, 100, 60, 10⟩
        [("t", .fin 0.5)]
        (normalize_book "t" [⟨.fin 0.55, .fin 10⟩] [⟨.fin 0.65, .fin 10⟩]
          (.fin 0))
      = (EmaState.set [("t", .fin 0.5)] "t"
           (.fin (specEmaStep 0.2 0.6 0.5)),
         .fin (specClamp01 (specEmaStep 0.2 0.6 0.5))) ∧
    specEmaStep 0.2 0.6 0.5 = 0.52 :=
  ⟨(fair_value_prob_ema_update _ _ _ 0.5 (by decide) (by decide)).1
      (by decide),
   (fair_value_prob_ema_update _ _ _ 0.6 (by decide) (by decide)).2 0.5
      (by decide),
   by decide⟩

/-- C3 counterexample: token "t" has a stored EMA of 0.7, the snapshot is
invalid (no bid, so `mid_price = 0.0`), yet `fair_value_prob` returns 0.5
rather than the stored EMA 0.7 the claim mandates. -/
theorem fair_value_prob_invalid_counterexample :
    FairValueEstimator.fair_value_prob ⟨0.2, 500, 100, 60, 10⟩
        [("t", .fin 0.7)]
        (normalize_book "t" [] [⟨.fin 0.5, .fin 10⟩] (.fin 0))
      = ([("t", .fin 0.7)], .fin 0.5) ∧
    EmaState.get [("t", .fin 0.7)] "t" = some (.fin 0.7) ∧
    (PyFloat.fin 0.5) ≠ (.fin 0.7) := by decide

/-- C3 amended: for every snapshot with no usable mid price (absent or
not greater than zero), `fair_value_prob` returns the constant 0.5 —
without consulting any stored EMA — and leaves the EMA state unchanged. -/
theorem fair_value_prob_invalid (cfg : SignalsConfig) (st : EmaState)
    (book : OrderBook)
    (h : book.mid_price = none ∨
      ∃ m, book.mid_price = some m ∧ PyFloat.lt (.fin 0) m = false) :
    FairValueEstimator.fair_value_prob cfg st book = (st, .fin 0.5) := by
  rw [FairValueEstimator.fair_value_prob]
  rcases h with h | ⟨m, hm, hlt⟩
  · rw [h]
    simp [pyOr, PyFloat.lt]
  · rw [hm]
    by_cases ht : pyTruthy m
    · simp [pyOr, ht, hlt]
    · simp [pyOr, ht, PyFloat.lt]

/-- Witness for the amended C3: a crossed (invalid) snapshot with a
stored EMA still yields 0.5 and an untouched state. -/
theorem fair_value_prob_invalid_witness :
    FairValueEstimator.fair_value_prob ⟨0.2, 500, 100, 60, 10⟩
        [("u", .fin 0.7)]
        (normalize_book "u" [⟨.fin 0.6, .fin 1⟩] [⟨.fin 0.5, .fin 1⟩]
          (.fin 0))
      = ([("u", .fin 0.7)], .fin 0.5) :=
  fair_value_prob_invalid _ _ _ (Or.inr ⟨.fin 0, by decide, by decide⟩)

/-- `x or 0.0` coincides with `getD 0.0`: the only falsy float is `0.0`
itself. -/
theorem pyOr_fin_zero (x : Option PyFloat) :
    pyOr x (.fin 0) = x.getD (.fin 0) := by
  cases x with
  | none => rfl
  | some v =>
    cases v with
    | fin q => by_cases h : q = 0 <;> simp [pyOr, pyTruthy, h]
    | inf => rfl
    | ninf => rfl
    | nan => rfl

/-- Spec §4.7 rule table, in the spec's listed order: spread (missing
treated as 99999), depth (missing treated as 0), staleness (missing age
passes). -/
def specFilterRules (cfg : SignalsConfig) (book : OrderBook)
    (snapshot_age_s : Option PyFloat) : List (Bool × String) :=
  [ (PyFloat.lt (.fin cfg.max_spread_bps)
       (book.spread_bps.getD (.fin 99999)),
     FilterReason.SPREAD_TOO_WIDE.value),
    (PyFloat.lt (book.depth_within_1pct.getD (.fin 0))
       (.fin cfg.min_depth_usdc),
     FilterReason.DEPTH_TOO_THIN.value),
    (snapshot_age_s.any fun a => PyFloat.lt (.fin cfg.max_snapshot_age_s) a,
     FilterReason.SNAPSHOT_STALE.value) ]

/-- The verdict induced by an ordered rule table: the earliest failing
rule's reason rejects; no failing rule accepts. -/
def specChainVerdict (rules : List (Bool × String)) : FilterResult :=
  match firstMatchingReason rules with
  | some r => { accepted := false, reason := some r }
  | none => { accepted := true, reason := none }

/-- C9: the filter chain equals the first-failing-rule verdict of the
ordered three-row table; in particular a snapshot failing both spread and
depth reports `spread_too_wide`, and passing all rules yields
`accepted = true`, `reason = none`. -/
theorem filters_apply_eq_first_failing (cfg : SignalsConfig)
    (book : OrderBook) (snapshot_age_s : Option PyFloat) :
    SignalFilters.apply cfg book snapshot_age_s
      = specChainVerdict (specFilterRules cfg book snapshot_age_s) := by
  have hd := pyOr_fin_zero book.depth_within_1pct
  by_cases h1 : PyFloat.lt (.fin cfg.max_spread_bps)
      (book.spread_bps.getD (.fin 99999)) = true
  · simp [SignalFilters.apply, SignalFilters.spread_filter,
      specChainVerdict, specFilterRules, firstMatchingReason, List.filter,
      FilterReason.value, h1]
  · by_cases h2 : PyFloat.lt (book.depth_within_1pct.getD (.fin 0))
        (.fin cfg.min_depth_usdc) = true
    · simp [SignalFilters.apply, SignalFilters.spread_filter,
        SignalFilters.depth_filter, specChainVerdict, specFilterRules,
        firstMatchingReason, List.filter, FilterReason.value, h1, h2, hd]
    · cases hage : snapshot_age_s with
      | none =>
        simp [SignalFilters.apply, SignalFilters.spread_filter,
          SignalFilters.depth_filter, SignalFilters.staleness_filter,
          specChainVerdict, specFilterRules, firstMatchingReason,
          List.filter, FilterReason.value, h1, h2, hd]
      | some a =>
        by_cases h3 : PyFloat.lt (.fin cfg.max_snapshot_age_s) a = true
        · simp [SignalFilters.apply, SignalFilters.spread_filter,
            SignalFilters.depth_filter, SignalFilters.staleness_filter,
            specChainVerdict, specFilterRules, firstMatchingReason,
            List.filter, FilterReason.value, h1, h2, h3, hd]
        · simp [SignalFilters.apply, SignalFilters.spread_filter,
            SignalFilters.depth_filter, SignalFilters.staleness_filter,
            specChainVerdict, specFilterRules, firstMatchingReason,
            List.filter, FilterReason.value, h1, h2, h3, hd]

/-- `src/strategy/signal_generation.py` line 108: the zero/non-finite
executable-price guard, `p > 0 and math.isfinite(p)`, as spelled on the
sell side (the buy-side spelling at line 89 is the `NameError` typo). -/
def execPriceGuard (p : PyFloat) : Bool :=
  PyFloat.lt (.fin 0) p && p.isfinite

/-- C4 counterexample: a crossed (hence invalid) book still has positive
finite executable prices after clamping, so the §4.6 guard does not
filter it upstream, and the filter chain's verdict for it is
`spread_too_wide` — never the reserved `invalid_book` code, which no code
path produces. -/
theorem invalid_book_guard_counterexample :
    (normalize_book "t" [⟨.fin 0.6, .fin 1⟩] [⟨.fin 0.5, .fin 1⟩]
        (.fin 0)).validity_reason ≠ none ∧
    execPriceGuard (SignalGenerator.implied_probs
        (normalize_book "t" [⟨.fin 0.6, .fin 1⟩] [⟨.fin 0.5, .fin 1⟩]
          (.fin 0))).2.1 = true ∧
    execPriceGuard (SignalGenerator.implied_probs
        (normalize_book "t" [⟨.fin 0.6, .fin 1⟩] [⟨.fin 0.5, .fin 1⟩]
          (.fin 0))).2.2 = true ∧
    (SignalFilters.apply ⟨0.2, 500, 100, 60, 10⟩
        (normalize_book "t" [⟨.fin 0.6, .fin 1⟩] [⟨.fin 0.5, .fin 1⟩]
          (.fin 0)) none).reason = some "spread_too_wide" ∧
    some "spread_too_wide" ≠ some FilterReason.INVALID_BOOK.value := by
  decide

/-- C4 amended: an invalid snapshot is not filtered by the
executable-price guard unless its clamped executable price is zero or
non-finite; instead, every invalid normalized snapshot has
`spread_bps = None`, so under any configuration with
`max_spread_bps < 99999` the filter chain annotates it with
`spread_too_wide`; the reserved `invalid_book` reason is never the
verdict. -/
theorem invalid_book_reported_as_spread (token_id : String)
    (bids asks : List OrderBookLevel) (timestamp : PyFloat)
    (cfg : SignalsConfig)
    (h : (normalize_book token_id bids asks timestamp).validity_reason
      ≠ none)
    (hcfg : cfg.max_spread_bps < 99999) :
    SignalFilters.apply cfg (normalize_book token_id bids asks timestamp)
        none
      = { accepted := false,
          reason := some FilterReason.SPREAD_TOO_WIDE.value } ∧
    FilterReason.SPREAD_TOO_WIDE.value ≠ FilterReason.INVALID_BOOK.value := by
  obtain ⟨-, hsp, -⟩ :=
    normalize_book_invalid_fields token_id bids asks timestamp h
  have hf : SignalFilters.spread_filter cfg
      (normalize_book token_id bids asks timestamp)
      = (false, some "spread_too_wide") := by
    rw [SignalFilters.spread_filter, hsp]
    simp [PyFloat.lt, hcfg]
  refine ⟨?_, by decide⟩
  rw [SignalFilters.apply, hf]
  rfl

/-- Witness for the amended C4 at a crossed book and the default-style
configuration. -/
theorem invalid_book_reported_as_spread_witness :
    SignalFilters.apply ⟨0.2, 500, 100, 60, 10⟩
        (normalize_book "u" [⟨.fin 0.7, .fin 1⟩] [⟨.fin 0.6, .fin 1⟩]
          (.fin 0)) none
      = { accepted := false,
          reason := some FilterReason.SPREAD_TOO_WIDE.value } ∧
    FilterReason.SPREAD_TOO_WIDE.value ≠ FilterReason.INVALID_BOOK.value :=
  invalid_book_reported_as_spread "u" [⟨.fin 0.7, .fin 1⟩]
    [⟨.fin 0.6, .fin 1⟩] (.fin 0) ⟨0.2, 500, 100, 60, 10⟩ (by decide)
    (by decide)

/-- C1 (refuted by the code): `generate_signals` raises `NameError` on
every input.  With at least one book, the first loop iteration evaluates
the unbound name `p` in the mistyped buy-side guard `p-exec_buy > 0`
(line 89); with no books, the after-loop sell block reads the
never-assigned `p_exec_sell` (line 108).  It never returns normally, so
it is not total over its declared input type. -/
theorem generate_signals_always_raises (cfg : SignalsConfig)
    (st : EmaState) (cycle_id : ℤ) (books : List OrderBook) :
    ∃ n, (SignalGenerator.generate_signals cfg st cycle_id books).2
      = .error (.nameError n) := by
  rcases h : sortedBy bookKeyLe books with _ | ⟨b, rest⟩
  · exact ⟨"p_exec_sell", by simp [SignalGenerator.generate_signals, h]⟩
  · exact ⟨"p", by simp [SignalGenerator.generate_signals, h]⟩

/-- C2 (refuted by the code): this snapshot's `p_exec_buy` is positive
and finite, so the claim requires a buy candidate to be emitted for it,
but the call raises `NameError` (the unbound `p` of line 89) and emits
nothing; the sell-side emission block moreover sits outside the per-book
loop. -/
theorem generate_signals_emission_counterexample :
    execPriceGuard (SignalGenerator.implied_probs
        (normalize_book "t" [⟨.fin 0.4, .fin 10⟩] [⟨.fin 0.45, .fin 10⟩]
          (.fin 0))).2.1 = true ∧
    (SignalGenerator.generate_signals ⟨0.2, 500, 100, 60, 10⟩ [] 1
        [normalize_book "t" [⟨.fin 0.4, .fin 10⟩] [⟨.fin 0.45, .fin 10⟩]
          (.fin 0)]).2
      = .error (.nameError "p") := by decide

/-- C10 (refuted by the code): even on two perfectly valid snapshots the
call raises `NameError` before the sort/truncate tail (lines 126-131) can
run, so `generate_signals` never produces an output list for the claimed
ordering and length properties to hold of. -/
theorem generate_signals_no_output_list :
    (SignalGenerator.generate_signals ⟨0.2, 500, 100, 60, 10⟩ [] 2
        [normalize_book "a" [⟨.fin 0.4, .fin 10⟩] [⟨.fin 0.45, .fin 10⟩]
          (.fin 0),
         normalize_book "b" [⟨.fin 0.3, .fin 10⟩] [⟨.fin 0.5, .fin 10⟩]
          (.fin 0)]).2
      = .error (.nameError "p") := by decide
